import Mathlib

/-!
Shallow embedding of the task orchestration core of the image2excel
repository (backend/app/image2excel/: `TaskExecutor.py`, `Task.py`,
`TaskManager.py`) together with theorems settling the frozen claims.

Modelling conventions:

* Python dictionaries keyed by iteration number are association lists
  `List (Nat × IterationResult)` with `dictSet` implementing
  `d[k] = v` (replace the existing entry, else append) and `dictGet`
  implementing `d.get(k)` / `k in d`.
* The collaborators at the process boundary (the model client reached by
  `send_request`, the `exec`-based code runner, the `to_excel` spreadsheet
  writer, and the text produced by `traceback.format_exc()`) are parameters
  of the model, collected in `CollabEnv`.  Each theorem instantiates them
  concretely.
* Wall-clock metadata (`created_at`, `last_updated_at`) and the
  fire-and-forget `update_hook` notification strings are not modelled:
  no claim observes them, and the hook is write-only.
* A task is modelled after a successful `initialize()`: the executor and
  the two prompts are present.  (`run()` first re-initializes otherwise;
  every claim is about an initialized task.)
* Python truthiness of an `Optional[str]` field (`if x:`) is `none` ↦ false,
  `some s` ↦ `¬ s.isEmpty`.
-/

namespace Image2Excel

/-- The `TaskState` enum of `TaskExecutor.py` (lines 14-21). -/
inductive TaskState where
  | CODE_GENERATED
  | CODE_EXECUTION_SUCCESS
  | CODE_EXECUTION_ERROR
  | WAITING_FOR_USER_FEEDBACK
  | EXCEL_EXPORT_SUCCESS
  | TASK_FAILED
deriving DecidableEq, Repr

/-- The `IterationResult` dataclass of `TaskExecutor.py` (lines 23-30).
`dataframe` holds the opaque payload of the bound pandas DataFrame. -/
structure IterationResult where
  generated_code : String
  execution_output : Option String
  error_message : Option String
  user_feedback : Option String
  dataframe : Option String
deriving DecidableEq, Repr

/-- The `ExecutionState` dataclass of `TaskExecutor.py` (lines 32-37); the
heterogeneous `data` dict is modelled as string-valued key/value pairs
(`None` ↦ the empty list). -/
structure ExecutionState where
  state : TaskState
  message : String
  data : List (String × String)
deriving DecidableEq, Repr

/-- A value bound in the local environment produced by `exec` inside
`TaskExecutor.execute_code`: either a pandas DataFrame (with an opaque
payload, so that `isinstance(df, pd.DataFrame)` is decidable) or any
other Python value. -/
inductive PyVal where
  | dataFrame (payload : String)
  | other (descr : String)
deriving DecidableEq, Repr

/-- Outcome of running a code string inside `exec` (the code runner
collaborator): either an exception escaped, or execution finished and left
this final local binding environment. -/
inductive RunOutcome where
  | raised (msg : String)
  | finished (locals : List (String × PyVal))
deriving DecidableEq, Repr

/-- Result of one `send_request` call (the model client collaborator):
the returned `generated_code` string, or a raised exception message. -/
inductive GenResult where
  | ok (generated_code : String)
  | raised (msg : String)
deriving DecidableEq, Repr

/-- Outcome of one `DataFrame.to_excel` call (the spreadsheet writer
collaborator). -/
inductive WriteOutcome where
  | ok
  | raised (msg : String)
deriving DecidableEq, Repr

/-- The `d.get(k)` on the iteration-history dict. -/
def dictGet : List (Nat × IterationResult) → Nat → Option IterationResult
  | [], _ => none
  | p :: rest, k => if p.1 == k then some p.2 else dictGet rest k

/-- The `k in d` on the iteration-history dict. -/
def dictMem (d : List (Nat × IterationResult)) (k : Nat) : Bool :=
  (dictGet d k).isSome

/-- The `d[k] = v` on the iteration-history dict: replace the entry for `k`
if present, else append it. -/
def dictSet (d : List (Nat × IterationResult)) (k : Nat) (v : IterationResult) :
    List (Nat × IterationResult) :=
  match d with
  | [] => [(k, v)]
  | (k₀, v₀) :: rest =>
      if k₀ == k then (k₀, v) :: rest else (k₀, v₀) :: dictSet rest k v

/-- The `local_vars["df"]` / `"df" in local_vars` lookup. -/
def pyLookup : List (String × PyVal) → String → Option PyVal
  | [], _ => none
  | p :: rest, name => if p.1 == name then some p.2 else pyLookup rest name

/-- Python truthiness of an `Optional[str]` value. -/
def optTruthy : Option String → Bool
  | none => false
  | some s => !s.isEmpty

/-- The `TaskExecutor` of `TaskExecutor.py` (lines 39-60).  `current_iteration`
is initialized to `0` in `__init__` and — this matters for several claims —
never incremented anywhere in the class or by its callers. -/
structure TaskExecutor where
  task_id : String
  username : String
  max_iterations : Nat
  current_iteration : Nat
  iteration_history : List (Nat × IterationResult)
deriving DecidableEq, Repr

/-- A fresh executor as built by `TaskExecutor.__init__` (default
`max_iterations = 3`). -/
def TaskExecutor.fresh (task_id username : String) (max_iterations : Nat) : TaskExecutor :=
  { task_id := task_id
    username := username
    max_iterations := max_iterations
    current_iteration := 0
    iteration_history := [] }

/-- The `TaskExecutor._generate_correction_prompt` (lines 66-91), split into its
string components.  Header appended first (line 71). -/
def correctionHeader : String := "根据上次执行的结果，请对代码进行如下改进：\n"

/-- The two error lines (lines 73-75). -/
def correctionErrBlock (e : String) : String :=
  "\n错误信息：\n" ++ e ++ "\n" ++ "\n请修复上述错误，确保代码可以正确执行。\n"

/-- The two feedback lines (lines 77-79). -/
def correctionFbBlock (f : String) : String :=
  "\n用户反馈：\n" ++ f ++ "\n" ++ "\n请根据用户反馈调整代码实现。\n"

/-- The execution-output line (lines 81-82). -/
def correctionOutBlock (o : String) : String :=
  "\n执行输出：\n" ++ o ++ "\n"

/-- The closing triple-quoted requirements block (lines 84-90). -/
def correctionTail : String :=
  "\n请确保：\n1. 代码生成正确的DataFrame\n2. 所有列使用适当的数据类型\n3. 数据经过适当的清理和格式化\n4. 最终结果保存在\x27df\x27变量中\n"

/-- The `TaskExecutor._generate_correction_prompt` (lines 66-91). -/
def _generate_correction_prompt (iteration_result : IterationResult) : String :=
  let prompt := correctionHeader
  let prompt :=
    match iteration_result.error_message with
    | some e => if e.isEmpty then prompt else prompt ++ correctionErrBlock e
    | none => prompt
  let prompt :=
    match iteration_result.user_feedback with
    | some f => if f.isEmpty then prompt else prompt ++ correctionFbBlock f
    | none => prompt
  let prompt :=
    match iteration_result.execution_output with
    | some o => if o.isEmpty then prompt else prompt ++ correctionOutBlock o
    | none => prompt
  prompt ++ correctionTail

/-- The `TaskExecutor.call_api` (lines 93-130).  `gen` is the outcome of the
`send_request` collaborator call, `tb` the text `traceback.format_exc()`
would capture.  Returns the `ExecutionState` and the updated executor. -/
def call_api (ex : TaskExecutor) (gen : GenResult) (tb : String) :
    ExecutionState × TaskExecutor :=
  -- the body of the `try`: obtain `generated_code`; empty code raises
  -- `ValueError("No code generated from API")`; a collaborator exception
  -- propagates to the same `except` clause (lines 122-130).
  let failWith (eMsg : String) : ExecutionState × TaskExecutor :=
    let error_msg := "代码生成失败: " ++ eMsg ++ "\n" ++ tb
    let ex' :=
      if dictMem ex.iteration_history ex.current_iteration then
        { ex with iteration_history :=
            match dictGet ex.iteration_history ex.current_iteration with
            | some rec₀ =>
                dictSet ex.iteration_history ex.current_iteration
                  { rec₀ with error_message := some error_msg }
            | none => ex.iteration_history }
      else ex
    ({ state := TaskState.TASK_FAILED, message := error_msg, data := [] }, ex')
  match gen with
  | GenResult.raised m => failWith m
  | GenResult.ok generated_code =>
      if generated_code.isEmpty then
        failWith "No code generated from API"
      else
        let newRec : IterationResult :=
          { generated_code := generated_code, execution_output := none,
            error_message := none, user_feedback := none, dataframe := none }
        let ex' :=
          { ex with iteration_history :=
              dictSet ex.iteration_history ex.current_iteration newRec }
        ({ state := TaskState.CODE_GENERATED,
           message := "代码生成成功",
           data := [("code", generated_code), ("iteration", toString ex.current_iteration)] },
         ex')

/-- The `TaskExecutor.execute_code` (lines 132-174).  `runner` is the `exec`
collaborator; `tb` the captured traceback text. -/
def execute_code (ex : TaskExecutor) (iteration : Nat)
    (runner : String → RunOutcome) (tb : String) :
    ExecutionState × TaskExecutor :=
  match dictGet ex.iteration_history iteration with
  | none =>
      ({ state := TaskState.CODE_EXECUTION_ERROR,
         message := "未找到迭代 " ++ toString iteration ++ " 的代码",
         data := [] }, ex)
  | some iteration_result =>
      -- the `try` body: run the code, then inspect `local_vars` for `df`;
      -- a missing binding or a non-DataFrame binding raises `ValueError`,
      -- handled by the same `except` clause as a runner exception.
      let failWith (eMsg : String) : ExecutionState × TaskExecutor :=
        let error_msg := "代码执行失败: " ++ eMsg ++ "\n" ++ tb
        let failedRec := { iteration_result with error_message := some error_msg }
        let ex' :=
          { ex with iteration_history :=
              dictSet ex.iteration_history iteration failedRec }
        ({ state := TaskState.CODE_EXECUTION_ERROR, message := error_msg, data := [] }, ex')
      match runner iteration_result.generated_code with
      | RunOutcome.raised m => failWith m
      | RunOutcome.finished local_vars =>
          match pyLookup local_vars "df" with
          | none => failWith "代码执行未生成\x27df\x27变量"
          | some (PyVal.other _) => failWith "生成的\x27df\x27不是pandas DataFrame类型"
          | some (PyVal.dataFrame payload) =>
              let iteration_result' :=
                { iteration_result with
                    dataframe := some payload
                    execution_output := some "DataFrame successfully created" }
              ({ state := TaskState.CODE_EXECUTION_SUCCESS,
                 message := "代码执行成功",
                 data := [("dataframe", payload)] },
               { ex with iteration_history :=
                   dictSet ex.iteration_history iteration iteration_result' })

/-- The `TaskExecutor.process_feedback` (lines 176-188). -/
def process_feedback (ex : TaskExecutor) (feedback : String) (iteration : Nat) :
    ExecutionState × TaskExecutor :=
  match dictGet ex.iteration_history iteration with
  | none =>
      ({ state := TaskState.CODE_EXECUTION_ERROR,
         message := "未找到迭代 " ++ toString iteration ++ " 的记录",
         data := [] }, ex)
  | some iteration_result =>
      let fbRec := { iteration_result with user_feedback := some feedback }
      ({ state := TaskState.WAITING_FOR_USER_FEEDBACK,
         message := "用户反馈已记录",
         data := [] },
       { ex with iteration_history := dictSet ex.iteration_history iteration fbRec })

/-- The `TaskExecutor.export_excel` (lines 190-225).  `writer` is the
`os.makedirs` + `DataFrame.to_excel` collaborator, applied to the output
path.  The guard `if not iteration_result.dataframe is not None` parses as
`not (dataframe is not None)`, i.e. it fires exactly when `dataframe` is
`None`.  Export never mutates the executor state. -/
def export_excel (ex : TaskExecutor) (iteration : Nat) (output_dir : String)
    (writer : String → WriteOutcome) : ExecutionState :=
  match dictGet ex.iteration_history iteration with
  | none =>
      { state := TaskState.CODE_EXECUTION_ERROR
        message := "未找到迭代 " ++ toString iteration ++ " 的数据"
        data := [] }
  | some iteration_result =>
      match iteration_result.dataframe with
      | none =>
          { state := TaskState.CODE_EXECUTION_ERROR
            message := "没有可导出的DataFrame"
            data := [] }
      | some _ =>
          let output_path :=
            output_dir ++ "/" ++ ex.task_id ++ "_iteration_" ++ toString iteration ++ ".xlsx"
          match writer output_path with
          | WriteOutcome.raised m =>
              { state := TaskState.CODE_EXECUTION_ERROR
                message := "Excel导出失败: " ++ m
                data := [] }
          | WriteOutcome.ok =>
              { state := TaskState.EXCEL_EXPORT_SUCCESS
                message := "Excel导出成功"
                data := [("file_path", output_path)] }

/-- The `TaskExecutor.get_iteration_results` (lines 227-229): returns a copy of
the history dict (the copy is identity in a functional model). -/
def get_iteration_results (ex : TaskExecutor) : List (Nat × IterationResult) :=
  ex.iteration_history

/-- The `TaskStatus` enum of `Task.py` (lines 21-30). -/
inductive TaskStatus where
  | CREATED
  | INITIALIZING
  | RUNNING
  | PAUSED
  | COMPLETED
  | FAILED
  | CANCELLED
deriving DecidableEq, Repr

/-- The `TaskMetadata` dataclass of `Task.py` (lines 33-41), without the
wall-clock `created_at` / `last_updated_at` fields (no claim observes
them). -/
structure TaskMetadata where
  total_iterations : Nat
  current_iteration : Nat
  error_count : Nat
deriving DecidableEq, Repr

/-- The `Image2ExcelTask` of `Task.py` (lines 44-274), modelled after a
successful `initialize()` (executor and prompts present).  Note that the
class never defines an attribute named `current_iteration`: the only
iteration counter on the task is `self._metadata.current_iteration`. -/
structure Image2ExcelTask where
  task_id : String
  username : String
  image_path : String
  status : TaskStatus
  metadata : TaskMetadata
  error : Option String
  cancellation_event : Bool
  executor : TaskExecutor
  system_prompt : String
  initial_user_prompt : String
  last_execution_state : Option ExecutionState
deriving DecidableEq, Repr

/-- The `Image2ExcelTask._update_status` (lines 102-106): sets the status; the
timestamp refresh and the fire-and-forget hook call are not modelled. -/
def Image2ExcelTask.update_status (t : Image2ExcelTask) (new_status : TaskStatus) :
    Image2ExcelTask :=
  { t with status := new_status }

/-- The `Image2ExcelTask.cancel` (lines 228-231): unconditionally sets the
cancellation event and then transitions the status to CANCELLED, whatever
the current status is. -/
def Image2ExcelTask.cancel (t : Image2ExcelTask) : Image2ExcelTask :=
  Image2ExcelTask.update_status { t with cancellation_event := true } TaskStatus.CANCELLED

/-- The `Image2ExcelTask.provide_feedback` (lines 244-254): forwards to
`TaskExecutor.process_feedback` only when the executor exists (always, in
this post-initialization model) and `metadata.current_iteration > 0`;
otherwise it does nothing. -/
def Image2ExcelTask.provide_feedback (t : Image2ExcelTask) (feedback : String) :
    Image2ExcelTask :=
  if 0 < t.metadata.current_iteration then
    { t with executor := (process_feedback t.executor feedback t.metadata.current_iteration).2 }
  else t

/-- The collaborators reached from `Image2ExcelTask.run`, as pure oracles:
`send_request` indexed by the number of the model call, the `exec` code
runner, the `to_excel` writer indexed by output path, and the text captured
by `traceback.format_exc()`. -/
structure CollabEnv where
  send_request : Nat → GenResult
  runner : String → RunOutcome
  writer : String → WriteOutcome
  tb : String

/-- Counters observing how many collaborator steps (`call_api`,
`execute_code`, `export_excel` invocations) a run has started. -/
structure RunObs where
  genCalls : Nat
  execCalls : Nat
  exportCalls : Nat
deriving DecidableEq, Repr

/-- Run-time state of `Image2ExcelTask.run`: the task plus the observation
counters. -/
structure RunState where
  task : Image2ExcelTask
  obs : RunObs
deriving DecidableEq, Repr

/-- How one pass of the `while` body of `run` hands control back:
`ret` models a `return` statement (run ends), `next` models falling
through to the next loop test. -/
inductive BodyExit where
  | ret
  | next
deriving DecidableEq, Repr

/-- The prompt selection at the top of the loop body (`Task.py` lines
161-175): the initial user prompt on `current_iteration == 0`, else the
correction prompt built from the record of the most recent iteration, with
the initial prompt as fallback when that record is missing. -/
def promptFor (t : Image2ExcelTask) : String :=
  if t.metadata.current_iteration = 0 then t.initial_user_prompt
  else
    match dictGet (get_iteration_results t.executor) t.metadata.current_iteration with
    | some last_result => _generate_correction_prompt last_result
    | none => t.initial_user_prompt

/-- The `str(e)` for the exception raised by `Task.py` line 178: the class
defines no attribute `current_iteration`, so the read half of
`self.current_iteration += 1` raises `AttributeError`. -/
def attrErrText : String :=
  "\x27Image2ExcelTask\x27 object has no attribute \x27current_iteration\x27"

/-- The remainder of the loop body, `Task.py` lines 179-214 (dynamically
dead code: the statement before it raises on every pass, see
`runLoopBody`).  Transcribed from the source: `call_api`, then on
CODE_GENERATED bump `total_iterations` and `execute_code` at
`metadata.current_iteration`; on execution success `export_excel`, and on
export success transition COMPLETED and return — an export failure has no
handler and falls through to the inter-iteration sleep; on execution
failure bump `error_count`; on TASK_FAILED from generation set the error
and transition FAILED and return. -/
def runBodyRest (env : CollabEnv) (s : RunState) (_user_prompt : String) :
    RunState × BodyExit :=
  let t := s.task
  let genStep := call_api t.executor (env.send_request s.obs.genCalls) env.tb
  let exec_state := genStep.1
  let obs₁ := { s.obs with genCalls := s.obs.genCalls + 1 }
  let t₁ := { t with executor := genStep.2, last_execution_state := some exec_state }
  if exec_state.state = TaskState.CODE_GENERATED then
    let t₂ :=
      { t₁ with metadata :=
          { t₁.metadata with total_iterations := t₁.metadata.total_iterations + 1 } }
    let execStep :=
      execute_code t₂.executor t₂.metadata.current_iteration env.runner env.tb
    let exec_state₂ := execStep.1
    let obs₂ := { obs₁ with execCalls := obs₁.execCalls + 1 }
    let t₃ := { t₂ with executor := execStep.2, last_execution_state := some exec_state₂ }
    if exec_state₂.state = TaskState.CODE_EXECUTION_SUCCESS then
      let export_state :=
        export_excel t₃.executor t₃.metadata.current_iteration
          "backend/app/image2excel/files/generated" env.writer
      let obs₃ := { obs₂ with exportCalls := obs₂.exportCalls + 1 }
      if export_state.state = TaskState.EXCEL_EXPORT_SUCCESS then
        (⟨t₃.update_status TaskStatus.COMPLETED, obs₃⟩, BodyExit.ret)
      else
        -- no `else` in the source for a failed export: fall through to the
        -- `await asyncio.sleep(1)` at line 214 and the next loop test
        (⟨t₃, obs₃⟩, BodyExit.next)
    else
      let t₄ :=
        { t₃ with metadata :=
            { t₃.metadata with error_count := t₃.metadata.error_count + 1 } }
      (⟨t₄, obs₂⟩, BodyExit.next)
  else if exec_state.state = TaskState.TASK_FAILED then
    let t₂ :=
      Image2ExcelTask.update_status { t₁ with error := some exec_state.message }
        TaskStatus.FAILED
    (⟨t₂, obs₁⟩, BodyExit.ret)
  else
    (⟨t₁, obs₁⟩, BodyExit.next)

/-- One pass of the `while` body of `Image2ExcelTask.run` (`Task.py` lines
161-214) in an exception monad.  After the prompt selection, the first
statement is `self.current_iteration += 1` (line 178); `Image2ExcelTask`
never defines an attribute `current_iteration` (the counter lives at
`self._metadata.current_iteration`), so the attribute read raises
`AttributeError` on every pass, before `call_api` is reached.  The rest of
the body (`runBodyRest`) is therefore unreachable. -/
def runLoopBody (env : CollabEnv) (s : RunState) : Except String (RunState × BodyExit) := do
  let user_prompt := promptFor s.task
  throw attrErrText
  pure (runBodyRest env s user_prompt)

/-- The `while` loop of `run` (`Task.py` lines 157-222) with explicit fuel,
together with the surrounding `try`/`except` (lines 156, 224-226): an
exception from the body sets `_error` to the prefixed message and
transitions FAILED; when the loop condition fails, the post-loop checks
transition CANCELLED if the cancellation event is set, else FAILED on an
exhausted budget (without setting `_error`).  `none` means the fuel ran
out, which never happens from `run` (the body raises on its first pass). -/
def runWhile : Nat → CollabEnv → RunState → Option RunState
  | 0, _, _ => none
  | fuel + 1, env, s =>
      if s.task.metadata.current_iteration < s.task.executor.max_iterations ∧
          s.task.cancellation_event = false then
        match runLoopBody env s with
        | Except.error e =>
            let t' :=
              Image2ExcelTask.update_status
                { s.task with error := some ("执行错误: " ++ e) } TaskStatus.FAILED
            some ⟨t', s.obs⟩
        | Except.ok (s', BodyExit.ret) => some s'
        | Except.ok (s', BodyExit.next) => runWhile fuel env s'
      else if s.task.cancellation_event = true then
        some ⟨s.task.update_status TaskStatus.CANCELLED, s.obs⟩
      else if s.task.executor.max_iterations ≤ s.task.metadata.current_iteration then
        some ⟨s.task.update_status TaskStatus.FAILED, s.obs⟩
      else
        some s

/-- The `Image2ExcelTask.run` (`Task.py` lines 144-226) on an initialized task:
transition RUNNING, then the `while` loop under `try`/`except`.  The fuel
`max_iterations + 1` is an upper bound on loop passes; it is never
exhausted because the body raises on its first pass
(`runLoopBody_throws`). -/
def Image2ExcelTask.run (env : CollabEnv) (t : Image2ExcelTask) : Option RunState :=
  let t₀ := t.update_status TaskStatus.RUNNING
  runWhile (t.executor.max_iterations + 1) env ⟨t₀, ⟨0, 0, 0⟩⟩

/-- The loop body always raises the `AttributeError` of `Task.py` line 178,
whatever the environment and state. -/
theorem runLoopBody_throws (env : CollabEnv) (s : RunState) :
    runLoopBody env s = Except.error attrErrText := rfl

/-- The `TaskRecord` dataclass of `TaskManager.py` (lines 17-23); the unused
`status` string field is omitted. -/
structure TaskRecord where
  task_id : String
  file_name : String
  task : Image2ExcelTask
deriving DecidableEq, Repr

/-- The task registry of `Image2ExcelTaskManager` (`TaskManager.py` line
79): `username -> task_id -> record`, as nested association lists. -/
abbrev Registry : Type :=
  List (String × List (String × TaskRecord))

/-- Lookup of `task_id` in a per-user map (`task_id in self._tasks[username]`
plus the subsequent indexing). -/
def innerLookup : List (String × TaskRecord) → String → Option TaskRecord
  | [], _ => none
  | q :: rest, task_id =>
      if q.1 == task_id then some q.2 else innerLookup rest task_id

/-- Registry lookup, as performed by `_validate_task` plus the subsequent
indexing (`TaskManager.py` lines 268-273). -/
def regLookup : Registry → String → String → Option TaskRecord
  | [], _, _ => none
  | p :: rest, username, task_id =>
      if p.1 == username then innerLookup p.2 task_id
      else regLookup rest username task_id

/-- Replacing the record found under `task_id` in a per-user map (the
functional image of mutating, in place, the object that lookup found). -/
def innerUpdate : List (String × TaskRecord) → String → TaskRecord →
    List (String × TaskRecord)
  | [], _, _ => []
  | q :: rest, task_id, rec =>
      if q.1 == task_id then (q.1, rec) :: rest else q :: innerUpdate rest task_id rec

/-- Replacing the record found under `(username, task_id)` (the functional
image of mutating, in place, the object that lookup found). -/
def regUpdate : Registry → String → String → TaskRecord → Registry
  | [], _, _, _ => []
  | p :: rest, username, task_id, rec =>
      if p.1 == username then (p.1, innerUpdate p.2 task_id rec) :: rest
      else p :: regUpdate rest username task_id rec

/-- The `Image2ExcelTaskManager.cancel_task` (`TaskManager.py` lines 149-165):
validate existence, then run `task.cancel()` and report `True`;  a missing
task reports `False`. -/
def Manager.cancel_task (m : Registry) (username task_id : String) : Bool × Registry :=
  match regLookup m username task_id with
  | none => (false, m)
  | some rec =>
      (true, regUpdate m username task_id { rec with task := rec.task.cancel })

/-- The `Image2ExcelTaskManager.provide_feedback` (`TaskManager.py` lines
249-266): validate existence, then run `task.provide_feedback(feedback)`
and report `True`; a missing task reports `False`. -/
def Manager.provide_feedback (m : Registry) (username task_id feedback : String) :
    Bool × Registry :=
  match regLookup m username task_id with
  | none => (false, m)
  | some rec =>
      (true,
       regUpdate m username task_id { rec with task := rec.task.provide_feedback feedback })

/-! ## Concrete sample inputs for the claim theorems -/

/-- A freshly created and initialized task with the default iteration
budget `max_iterations = 3`. -/
def freshTask : Image2ExcelTask :=
  { task_id := "task_0001"
    username := "alice"
    image_path := "uploads/table.png"
    status := TaskStatus.CREATED
    metadata := { total_iterations := 0, current_iteration := 0, error_count := 0 }
    error := none
    cancellation_event := false
    executor := TaskExecutor.fresh "task_0001" "alice" 3
    system_prompt := "system prompt"
    initial_user_prompt := "initial user prompt"
    last_execution_state := none }

/-- Collaborators that all succeed: the model returns code on every call,
running that code binds a pandas DataFrame to `df`, and the spreadsheet
writer succeeds. -/
def envAllGood : CollabEnv :=
  { send_request := fun _ => GenResult.ok "import pandas as pd"
    runner := fun _ => RunOutcome.finished [("df", PyVal.dataFrame "extracted table")]
    writer := fun _ => WriteOutcome.ok
    tb := "Traceback (most recent call last): ..." }

/-- Collaborators where every model-generation call fails. -/
def envGenFails : CollabEnv :=
  { envAllGood with send_request := fun _ => GenResult.raised "connection refused" }

/-- Collaborators where the code runner always raises one fixed error. -/
def envRunnerFails : CollabEnv :=
  { envAllGood with runner := fun _ => RunOutcome.raised "fixed error" }

/-- Collaborators where generation and execution succeed but the
spreadsheet writer always fails. -/
def envWriterFails : CollabEnv :=
  { envAllGood with writer := fun _ => WriteOutcome.raised "disk full" }

/-- The error text `run()` ends with on every entered loop: the blanket
handler of `Task.py` lines 224-226 prefixes the `AttributeError` text. -/
def runCrashError : String := "执行错误: " ++ attrErrText

/-! ## C1 -/

/-- C1 (code bug): the claim says that with a Code Runner succeeding on
iteration 1 and a successful writer, `run()` ends COMPLETED after exactly
one iteration with a file reference present.  On the code, entering the
loop raises `AttributeError` at `Task.py` line 178 (`self.current_iteration
+= 1` on a class with no such attribute) before any model call; the blanket
handler turns this into terminal FAILED.  The final state after `run()` on
a fresh task with all-succeeding collaborators: status FAILED, zero
generate/execute/export steps started, task otherwise unchanged — in
particular no file reference anywhere. -/
theorem C1_run_with_succeeding_collaborators_fails :
    Image2ExcelTask.run envAllGood freshTask =
      some ⟨{ freshTask with status := TaskStatus.FAILED, error := some runCrashError },
            ⟨0, 0, 0⟩⟩ := by
  rfl

/-! ## C2 -/

/-- C2 (code bug): the claim says a model-generation failure on iteration
`i < N` is recovered locally and never yields a terminal status while
budget remains.  On the code, with a generation-failing model client and
the full budget of 3 remaining, `run()` reaches terminal FAILED at once:
the loop body raises before `call_api` (so the generation branch that maps
a failure to `TaskState.TASK_FAILED` — itself terminal at `Task.py` lines
208-211, not a retry — is never even reached), zero attempts are counted
and the budget is entirely unused. -/
theorem C2_generation_failure_not_recovered :
    Image2ExcelTask.run envGenFails freshTask =
      some ⟨{ freshTask with status := TaskStatus.FAILED, error := some runCrashError },
            ⟨0, 0, 0⟩⟩ ∧
    freshTask.metadata.current_iteration < freshTask.executor.max_iterations := by
  exact ⟨rfl, by decide⟩

/-! ## C3 -/

/-- C3 (code bug): the claim says a successful execution is followed by an
immediate export, and a failed export yields terminal FAILED with no
further iteration.  On the code, with collaborators where execution would
succeed and the writer would fail, `run()` never starts an export (or any
collaborator step): the loop body raises at `Task.py` line 178 first.
(Statically, the source also has no failure branch after
`export_excel` — `Task.py` lines 199-204 — so a failed export would fall
through to the next iteration rather than transition FAILED; see
`runBodyRest`.) -/
theorem C3_export_failure_path_unreachable :
    Image2ExcelTask.run envWriterFails freshTask =
      some ⟨{ freshTask with status := TaskStatus.FAILED, error := some runCrashError },
            ⟨0, 0, 0⟩⟩ := by
  rfl

/-! ## C5 -/

/-- C5 (code bug): the claim says that with an always-failing Code Runner
and `max_iterations = 3`, `run()` ends FAILED with `error_count = 3` and
three IterationRecords, each carrying an error message.  On the code the
status is indeed FAILED, but because the loop body raises at `Task.py` line
178 before any collaborator step, `error_count` stays 0 and the iteration
history stays empty. -/
theorem C5_failing_runner_counts_nothing :
    (Image2ExcelTask.run envRunnerFails freshTask).map (fun s =>
        (s.task.status, s.task.metadata.error_count,
         s.task.executor.iteration_history.length, s.obs)) =
      some (TaskStatus.FAILED, 0, 0, ⟨0, 0, 0⟩) := by
  rfl

/-! ## C8 -/

/-- C8 (confirmed): when the cancellation signal is already set as `run()`
is invoked, the loop condition fails at its first test, the task
transitions to CANCELLED and `run()` returns with zero model-generation
(and execute/export) steps started.  More generally no collaborator step
ever starts once the signal is set: the loop tests the signal before each
pass and the body has no suspension point at which the signal could be
observed later. -/
theorem C8_cancellation_preempts_run (env : CollabEnv) (t : Image2ExcelTask)
    (h : t.cancellation_event = true) :
    Image2ExcelTask.run env t =
      some ⟨{ t with status := TaskStatus.CANCELLED }, ⟨0, 0, 0⟩⟩ := by
  unfold Image2ExcelTask.run runWhile
  simp [h, Image2ExcelTask.update_status]

/-- A task whose cancellation signal is set before `run()` is invoked. -/
def cancelledTask : Image2ExcelTask :=
  { freshTask with cancellation_event := true }

/-- Witness for C8 at a concrete cancelled task and concrete
collaborators. -/
theorem C8_cancellation_preempts_run_witness :
    Image2ExcelTask.run envAllGood cancelledTask =
      some ⟨{ cancelledTask with status := TaskStatus.CANCELLED }, ⟨0, 0, 0⟩⟩ :=
  C8_cancellation_preempts_run envAllGood cancelledTask rfl

/-! ## C9 -/

/-- C9 (code bug): the claim says every successful generation appends a new
IterationRecord, never overwriting, keyed by a unique 1-based
`iteration_number`.  On the code, `call_api` stores each record at
`self.current_iteration` of the executor, which `__init__` sets to 0 and
nothing ever increments: after two consecutive successful generations the
history holds a single record, at key 0 (not 1-based), the second success
having overwritten the first. -/
theorem C9_second_generation_overwrites_first :
    (call_api (TaskExecutor.fresh "task_0002" "bob" 3) (GenResult.ok "code one") "tb").1.state
        = TaskState.CODE_GENERATED ∧
    (call_api (call_api (TaskExecutor.fresh "task_0002" "bob" 3)
          (GenResult.ok "code one") "tb").2 (GenResult.ok "code two") "tb").1.state
        = TaskState.CODE_GENERATED ∧
    (call_api (TaskExecutor.fresh "task_0002" "bob" 3)
          (GenResult.ok "code one") "tb").2.iteration_history
        = [(0, ⟨"code one", none, none, none, none⟩)] ∧
    (call_api (call_api (TaskExecutor.fresh "task_0002" "bob" 3)
          (GenResult.ok "code one") "tb").2 (GenResult.ok "code two") "tb").2.iteration_history
        = [(0, ⟨"code two", none, none, none, none⟩)] := by
  decide

/-! ## C4 -/

/-- A task that has already reached the terminal status COMPLETED. -/
def completedTask : Image2ExcelTask :=
  { freshTask with status := TaskStatus.COMPLETED }

/-- Counterexample to C4: `Image2ExcelTask.cancel` guards nothing — invoked
on a COMPLETED task it mutates the terminal status to CANCELLED, so
"no operation mutates the status of a terminal task" is false on the
code. -/
theorem C4_counterexample :
    completedTask.status = TaskStatus.COMPLETED ∧
    completedTask.cancel.status ≠ completedTask.status := by
  decide

/-- Inner lookup after replacing the record stored under the same key. -/
theorem innerLookup_innerUpdate (ts : List (String × TaskRecord)) (tid : String)
    (rec rec' : TaskRecord) (h : innerLookup ts tid = some rec) :
    innerLookup (innerUpdate ts tid rec') tid = some rec' := by
  induction ts with
  | nil => simp [innerLookup] at h
  | cons q qs ih =>
      by_cases ht : (q.1 == tid) = true
      · simp [innerUpdate, innerLookup, ht]
      · simp only [innerUpdate, innerLookup, ht, if_false, Bool.false_eq_true] at h ⊢
        exact ih h

/-- Replacing a record with the value lookup already found is the
identity. -/
theorem innerUpdate_self (ts : List (String × TaskRecord)) (tid : String)
    (rec : TaskRecord) (h : innerLookup ts tid = some rec) :
    innerUpdate ts tid rec = ts := by
  induction ts with
  | nil => rfl
  | cons q qs ih =>
      rcases q with ⟨qid, qrec⟩
      by_cases ht : (qid == tid) = true
      · simp only [innerLookup, ht, if_true, Option.some.injEq] at h
        simp [innerUpdate, ht, h]
      · simp only [innerLookup, ht, if_false, Bool.false_eq_true] at h
        simp only [innerUpdate, ht, if_false, Bool.false_eq_true, List.cons.injEq]
        exact ⟨trivial, ih h⟩

/-- Lookup after replacing the record stored under the same keys. -/
theorem regLookup_regUpdate (m : Registry) (u tid : String) (rec rec' : TaskRecord)
    (h : regLookup m u tid = some rec) :
    regLookup (regUpdate m u tid rec') u tid = some rec' := by
  induction m with
  | nil => simp [regLookup] at h
  | cons p rest ih =>
      by_cases hu : (p.1 == u) = true
      · simp only [regLookup, hu, if_true] at h
        simp only [regUpdate, hu, if_true, regLookup]
        exact innerLookup_innerUpdate p.2 tid rec rec' h
      · simp only [regLookup, hu, if_false, Bool.false_eq_true] at h
        simp only [regUpdate, hu, if_false, Bool.false_eq_true, regLookup]
        exact ih h

/-- Replacing a registry record with the value lookup already found is the
identity. -/
theorem regUpdate_self (m : Registry) (u tid : String) (rec : TaskRecord)
    (h : regLookup m u tid = some rec) :
    regUpdate m u tid rec = m := by
  induction m with
  | nil => rfl
  | cons p rest ih =>
      rcases p with ⟨pu, pts⟩
      by_cases hu : (pu == u) = true
      · simp only [regLookup, hu, if_true] at h
        simp [regUpdate, hu, innerUpdate_self pts tid rec h]
      · simp only [regLookup, hu, if_false, Bool.false_eq_true] at h
        simp only [regUpdate, hu, if_false, Bool.false_eq_true, List.cons.injEq]
        exact ⟨trivial, ih h⟩

/-- C4 (corrected): terminal statuses are not write-protected.  `cancel()`
on any task — terminal or not — sets the cancellation signal and
unconditionally transitions the status to CANCELLED, and
`Manager.cancel_task` on any registered task reports `True` and applies
exactly that mutation (so on a COMPLETED/FAILED task it is a status
mutation, not a no-op).  A second status read after `cancel` is stable at
CANCELLED, a repeated `cancel` leaves CANCELLED in place, and
`provide_feedback` never changes a status. -/
theorem C4_cancel_mutates_terminal_tasks (m : Registry) (u tid fb : String)
    (rec : TaskRecord) (h : regLookup m u tid = some rec) :
    (Manager.cancel_task m u tid).1 = true ∧
    regLookup (Manager.cancel_task m u tid).2 u tid =
      some { rec with task := rec.task.cancel } ∧
    rec.task.cancel.status = TaskStatus.CANCELLED ∧
    rec.task.cancel.cancellation_event = true ∧
    rec.task.cancel.cancel.status = rec.task.cancel.status ∧
    (rec.task.provide_feedback fb).status = rec.task.status := by
  refine ⟨?_, ?_, rfl, rfl, rfl, ?_⟩
  · simp [Manager.cancel_task, h]
  · simp only [Manager.cancel_task, h]
    exact regLookup_regUpdate m u tid rec _ h
  · unfold Image2ExcelTask.provide_feedback
    split <;> rfl

/-- A one-task registry holding the COMPLETED task. -/
def regCompleted : Registry :=
  [("alice", [("task_0001", ⟨"task_0001", "table.png", completedTask⟩)])]

/-- Witness for C4 (corrected): on the registry holding the COMPLETED task,
`Manager.cancel_task` reports `True` and leaves the task CANCELLED. -/
theorem C4_cancel_mutates_terminal_tasks_witness :
    (Manager.cancel_task regCompleted "alice" "task_0001").1 = true ∧
    regLookup (Manager.cancel_task regCompleted "alice" "task_0001").2 "alice" "task_0001" =
      some { task_id := "task_0001", file_name := "table.png", task := completedTask.cancel } ∧
    completedTask.cancel.status = TaskStatus.CANCELLED := by
  have h := C4_cancel_mutates_terminal_tasks regCompleted "alice" "task_0001" "fb"
    ⟨"task_0001", "table.png", completedTask⟩ rfl
  exact ⟨h.1, h.2.1, h.2.2.1⟩

/-! ## C10 -/

/-- With `metadata.current_iteration = 0`, `Image2ExcelTask.provide_feedback`
does nothing (the guard at `Task.py` line 251 fails). -/
theorem provide_feedback_noop (t : Image2ExcelTask) (fb : String)
    (h : t.metadata.current_iteration = 0) :
    t.provide_feedback fb = t := by
  unfold Image2ExcelTask.provide_feedback
  simp [h]

/-- C10 (confirmed): for every registered `(owner, task_id)` pair,
`Manager.provide_feedback` reports `True`; when the task has
`metadata.current_iteration = 0` the whole registry — task, status,
metadata, iteration history — is left unchanged while `True` is still
reported; and any change at all to the task implies
`metadata.current_iteration > 0` (feedback is attached only then). -/
theorem C10_feedback_true_and_frame (m : Registry) (u tid fb : String)
    (rec : TaskRecord) (h : regLookup m u tid = some rec) :
    (Manager.provide_feedback m u tid fb).1 = true ∧
    (rec.task.metadata.current_iteration = 0 →
      (Manager.provide_feedback m u tid fb).2 = m) ∧
    (rec.task.provide_feedback fb ≠ rec.task →
      0 < rec.task.metadata.current_iteration) := by
  refine ⟨by simp [Manager.provide_feedback, h], ?_, ?_⟩
  · intro h0
    simp only [Manager.provide_feedback, h]
    rw [provide_feedback_noop rec.task fb h0]
    exact regUpdate_self m u tid rec h
  · intro hne
    by_contra h0
    exact hne (provide_feedback_noop rec.task fb (Nat.eq_zero_of_not_pos h0))

/-- A one-task registry holding the fresh task, whose
`metadata.current_iteration` is 0. -/
def regFresh : Registry :=
  [("alice", [("task_0001", ⟨"task_0001", "table.png", freshTask⟩)])]

/-- Witness for C10: on the fresh task (current_iteration = 0) the call
reports `True` and the registry is unchanged. -/
theorem C10_feedback_true_and_frame_witness :
    (Manager.provide_feedback regFresh "alice" "task_0001" "第二列应为日期").1 = true ∧
    (Manager.provide_feedback regFresh "alice" "task_0001" "第二列应为日期").2 = regFresh := by
  have h := C10_feedback_true_and_frame regFresh "alice" "task_0001" "第二列应为日期"
    ⟨"task_0001", "table.png", freshTask⟩ rfl
  exact ⟨h.1, h.2.1 rfl⟩

/-! ## C7 -/

/-- Writing a key into the history dict makes it the value lookup finds. -/
theorem dictGet_dictSet_self (d : List (Nat × IterationResult)) (k : Nat)
    (v : IterationResult) : dictGet (dictSet d k v) k = some v := by
  induction d with
  | nil => simp [dictGet, dictSet]
  | cons p rest ih =>
      rcases p with ⟨k₀, v₀⟩
      by_cases hk : (k₀ == k) = true
      · simp [dictSet, dictGet, hk]
      · simp only [dictSet, hk, if_false, Bool.false_eq_true, dictGet]
        exact ih

/-- A string with a nonempty left part is nonempty. -/
theorem strAppend_ne_empty_left (a b : String) (ha : a ≠ "") : a ++ b ≠ "" := by
  intro hab
  apply ha
  apply String.ext
  have hd := congrArg String.data hab
  rw [String.data_append] at hd
  exact (List.append_eq_nil.mp hd).1

/-- C7 (confirmed): on an iteration whose generated code exists in the
history, `execute_code` returns CODE_EXECUTION_SUCCESS exactly when running
the code finishes with a local binding `df` of DataFrame type — in that
case the artifact is attached to the record; in every other case (runner
raised, no `df` binding, or a non-DataFrame `df`) it returns
CODE_EXECUTION_ERROR, never a success state, with nonempty diagnostic text,
and the record in the history carries a populated `error_message`. -/
theorem C7_execute_code_validates_df (ex : TaskExecutor) (iteration : Nat)
    (runner : String → RunOutcome) (tb : String) (rec : IterationResult)
    (h : dictGet ex.iteration_history iteration = some rec) :
    ((execute_code ex iteration runner tb).1.state = TaskState.CODE_EXECUTION_SUCCESS ↔
      ∃ lv p, runner rec.generated_code = RunOutcome.finished lv ∧
        pyLookup lv "df" = some (PyVal.dataFrame p)) ∧
    ((execute_code ex iteration runner tb).1.state ≠ TaskState.CODE_EXECUTION_SUCCESS →
      (execute_code ex iteration runner tb).1.state = TaskState.CODE_EXECUTION_ERROR ∧
      (execute_code ex iteration runner tb).1.message ≠ "" ∧
      ∃ rec', dictGet (execute_code ex iteration runner tb).2.iteration_history iteration
          = some rec' ∧ rec'.error_message.isSome = true) ∧
    (∀ lv p, runner rec.generated_code = RunOutcome.finished lv →
      pyLookup lv "df" = some (PyVal.dataFrame p) →
      dictGet (execute_code ex iteration runner tb).2.iteration_history iteration =
        some { rec with dataframe := some p,
                        execution_output := some "DataFrame successfully created" }) := by
  have hpre : ("代码执行失败: " : String) ≠ "" := by decide
  have hmsg : ∀ eMsg : String, "代码执行失败: " ++ eMsg ++ "\n" ++ tb ≠ "" := fun eMsg =>
    strAppend_ne_empty_left _ _ (strAppend_ne_empty_left _ _
      (strAppend_ne_empty_left _ _ hpre))
  rcases hr : runner rec.generated_code with m | lv
  · -- runner raised
    simp only [execute_code, h, hr]
    refine ⟨by simp [hr], ?_, ?_⟩
    · intro _
      exact ⟨trivial, hmsg m, _, dictGet_dictSet_self _ _ _, rfl⟩
    · intro lv p hlv
      exact RunOutcome.noConfusion hlv
  · -- runner finished with locals lv
    rcases hdf : pyLookup lv "df" with _ | val
    · -- no df binding
      simp only [execute_code, h, hr, hdf]
      refine ⟨by simp [hr, hdf], ?_, ?_⟩
      · intro _
        exact ⟨trivial, hmsg _, _, dictGet_dictSet_self _ _ _, rfl⟩
      · intro lv' p hlv hdf'
        cases hlv
        rw [hdf] at hdf'
        exact Option.noConfusion hdf'
    · rcases val with payload | d
      · -- df is a DataFrame: success
        simp only [execute_code, h, hr, hdf]
        refine ⟨⟨fun _ => ⟨lv, payload, rfl, hdf⟩, fun _ => trivial⟩, ?_, ?_⟩
        · intro hne
          exact absurd rfl hne
        · intro lv' p hlv hdf'
          cases hlv
          rw [hdf] at hdf'
          simp only [Option.some.injEq, PyVal.dataFrame.injEq] at hdf'
          subst hdf'
          exact dictGet_dictSet_self _ _ _
      · -- df is not a DataFrame
        simp only [execute_code, h, hr, hdf]
        refine ⟨by simp [hr, hdf], ?_, ?_⟩
        · intro _
          exact ⟨trivial, hmsg _, _, dictGet_dictSet_self _ _ _, rfl⟩
        · intro lv' p hlv hdf'
          cases hlv
          rw [hdf] at hdf'
          simp at hdf'

/-- The iteration record the C7 witness executes. -/
def recC7 : IterationResult :=
  { generated_code := "import pandas as pd"
    execution_output := none
    error_message := none
    user_feedback := none
    dataframe := none }

/-- An executor whose history holds `recC7` at iteration 1. -/
def exC7 : TaskExecutor :=
  { TaskExecutor.fresh "task_0003" "carol" 3 with iteration_history := [(1, recC7)] }

/-- Witness for C7 at a concrete executor and a runner that raises. -/
theorem C7_execute_code_validates_df_witness :
    (execute_code exC7 1 (fun _ => RunOutcome.raised "NameError") "tb").1.state
        = TaskState.CODE_EXECUTION_ERROR ∧
    (execute_code exC7 1 (fun _ => RunOutcome.raised "NameError") "tb").1.message ≠ "" := by
  have h := C7_execute_code_validates_df exC7 1
    (fun _ => RunOutcome.raised "NameError") "tb" recC7 rfl
  have hne : (execute_code exC7 1 (fun _ => RunOutcome.raised "NameError") "tb").1.state
      ≠ TaskState.CODE_EXECUTION_SUCCESS := by decide
  exact ⟨(h.2.1 hne).1, (h.2.1 hne).2.1⟩

/-! ## C6 -/

/-- The middle section of the correction prompt: the concatenation of the
blocks whose fields are present (truthy), in source order — error first,
then feedback, then execution output. -/
def correctionMiddle (r : IterationResult) : String :=
  (match r.error_message with
   | some e => if e.isEmpty then "" else correctionErrBlock e
   | none => "") ++
  ((match r.user_feedback with
    | some f => if f.isEmpty then "" else correctionFbBlock f
    | none => "") ++
   (match r.execution_output with
    | some o => if o.isEmpty then "" else correctionOutBlock o
    | none => ""))

/-- Every correction prompt is the header, then the present blocks in
source order, then the closing requirements. -/
theorem correction_prompt_decompose (r : IterationResult) :
    _generate_correction_prompt r =
      correctionHeader ++ (correctionMiddle r ++ correctionTail) := by
  unfold _generate_correction_prompt correctionMiddle
  rcases r with ⟨gc, eo, em, uf, df⟩
  cases em <;> cases uf <;> cases eo <;> dsimp only [] <;> (try split_ifs) <;>
    simp [String.append_assoc, String.append_empty, String.empty_append]

/-- C6 (corrected, amended): the correction prompt is coherent in all four
presence combinations of `error_message` and `user_feedback` — it always
opens with the fixed header and always closes with the four structural
requirements of `correctionTail` (a correct DataFrame, correctly typed
columns, cleaned/formatted data, and the result bound to df) — and when
both the error and the feedback are present, the error text appears in the
prompt strictly before the feedback text. -/
theorem C6_correction_prompt_structure (r : IterationResult) :
    (∃ mid, _generate_correction_prompt r =
        correctionHeader ++ (mid ++ correctionTail)) ∧
    (∀ e f, r.error_message = some e → e ≠ "" → r.user_feedback = some f → f ≠ "" →
      ∃ pre mid post,
        _generate_correction_prompt r = pre ++ (e ++ (mid ++ (f ++ post)))) := by
  constructor
  · exact ⟨correctionMiddle r, correction_prompt_decompose r⟩
  · intro e f he hene hf hfne
    have h1 : e.isEmpty = false := by
      cases he2 : e.isEmpty
      · rfl
      · exact absurd ((String.isEmpty_iff e).mp he2) hene
    have h2 : f.isEmpty = false := by
      cases hf2 : f.isEmpty
      · rfl
      · exact absurd ((String.isEmpty_iff f).mp hf2) hfne
    refine ⟨correctionHeader ++ "\n错误信息：\n",
      "\n" ++ "\n请修复上述错误，确保代码可以正确执行。\n" ++ "\n用户反馈：\n",
      "\n" ++ ("\n请根据用户反馈调整代码实现。\n" ++
        ((match r.execution_output with
          | some o => if o.isEmpty then "" else correctionOutBlock o
          | none => "") ++ correctionTail)), ?_⟩
    rw [correction_prompt_decompose r]
    unfold correctionMiddle correctionErrBlock correctionFbBlock
    rw [he, hf]
    simp only [h1, h2, Bool.false_eq_true, if_false, String.append_assoc]

/-- The four closing structural requirements as the specification words
them, for comparison with the prompt the code builds; the last one is a
no-truncation clause, whose wording in this repository is 截断 (as in the
initial system prompt) or a Latin spelling. -/
def specNoTruncationMarkers : List String := ["截断", "truncat"]

/-- An iteration record with both an error message and user feedback. -/
def recBoth : IterationResult :=
  { generated_code := "import pandas as pd"
    execution_output := none
    error_message := some "KeyError"
    user_feedback := some "第二列应为日期"
    dataframe := none }

/-- Test that `n` is a leading segment of `h`, on character lists. -/
def leadingMatch : List Char → List Char → Bool
  | [], _ => true
  | _ :: _, [] => false
  | a :: as, b :: bs => a == b && leadingMatch as bs

/-- Test that `n` occurs as a contiguous substring of `h`, on character lists. -/
def occursWithin (n : List Char) : List Char → Bool
  | [] => leadingMatch n []
  | b :: bs => leadingMatch n (b :: bs) || occursWithin n bs

/-- Counterexample to C6 as stated: the generated correction prompt (here
for a record with both an error and feedback) contains no truncation
requirement at all — neither 截断 nor a Latin spelling occurs anywhere in
it — so the claim that the closing structural requirements include a
no-truncation clause is false; the fourth requirement the code emits is
that the result be bound to df. -/
theorem C6_counterexample :
    specNoTruncationMarkers.all
      (fun w => !(occursWithin w.data (_generate_correction_prompt recBoth).data)) = true := by
  decide

/-- Witness for C6 at the concrete record with both error and feedback. -/
theorem C6_correction_prompt_structure_witness :
    (∃ mid, _generate_correction_prompt recBoth =
        correctionHeader ++ (mid ++ correctionTail)) ∧
    (∃ pre mid post, _generate_correction_prompt recBoth =
        pre ++ ("KeyError" ++ (mid ++ ("第二列应为日期" ++ post)))) := by
  have h := C6_correction_prompt_structure recBoth
  exact ⟨h.1, h.2 "KeyError" "第二列应为日期" rfl (by decide) rfl (by decide)⟩

end Image2Excel
